import Mathlib

/-!
# Verification of the fluid-simulation solver (CodeVermA/fluid-simulation)

Shallow embedding of the Stable-Fluids solver: the sequential (CPU)
implementation `FluidSolver.ts`, the parallel (GPU) implementation
`FluidSolverGPU.ts`, and its GLSL fragment shaders (`fluidShaders.ts`).
Field buffers are modelled as total functions, 32-bit floats as rationals
(reals where a square root occurs), and the per-cell GLSL passes as pure
functions of the sampled neighbourhood, exactly as each shader reads it.
-/

namespace FluidSim

/-! ## Double-buffered framebuffer (GPUResources.createDoubleFramebuffer) -/

/-- A framebuffer/texture pair.  The texture's sample data is carried
explicitly so that statements about swap not touching data are expressible.
Handles are opaque naturals. -/
structure FBO where
  framebuffer : ℕ
  texture : ℕ
  data : ℕ → ℚ

/-- `createDoubleFramebuffer`'s returned object: a `read`/`write` pair. -/
structure DoubleFramebuffer where
  read : FBO
  write : FBO

/-- `swap()` from `GPUResources.createDoubleFramebuffer`:
`temp = read; read = write; write = temp` — a pure identity exchange. -/
def DoubleFramebuffer.swap (d : DoubleFramebuffer) : DoubleFramebuffer :=
  { read := d.write, write := d.read }

/-! ## Step orchestration traces

`FluidSolver.step` (CPU) and `FluidSolverGPU.step` call a fixed sequence of
operators.  We record each call with its actual arguments, in source order. -/

/-- CPU-side buffer names (the six `Float32Array`s of `FluidSolver`). -/
inductive CpuBuf
  | prevVX | currVX | prevVY | currVY | prevD | currD
  deriving DecidableEq, Repr

/-- One operator call inside `FluidSolver.step`, with the arguments the
source passes (the `b` boundary tag and which buffers are involved). -/
inductive CpuOp
  | diffuse (b : ℤ) (target source : CpuBuf) (rate : ℚ)
  | project (vx vy p div : CpuBuf)
  | advect (b : ℤ) (target source velX velY : CpuBuf)
  deriving DecidableEq, Repr

/-- The exact call sequence of `FluidSolver.step(dt)` (FluidSolver.ts,
lines 253–310).  It is the same for every `dt`. -/
def cpuStepTrace : List CpuOp :=
  [ .diffuse 1 .prevVX .currVX (1/10000)
  , .diffuse 2 .prevVY .currVY (1/10000)
  , .project .prevVX .prevVY .currVX .currVY
  , .advect 1 .currVX .prevVX .prevVX .prevVY
  , .advect 2 .currVY .prevVY .prevVX .prevVY
  , .project .currVX .currVY .prevVX .prevVY
  , .diffuse 0 .prevD .currD (1/10000)
  , .advect 0 .currD .prevD .currVX .currVY ]

/-- GPU-side double framebuffers used by `FluidSolverGPU.step`. -/
inductive GpuBuf
  | velocity | density
  deriving DecidableEq, Repr

/-- One operator call inside `FluidSolverGPU.step`, with its arguments. -/
inductive GpuOp
  | advect (target velocityArg : GpuBuf) (dissipation : ℚ)
  | enforceBoundaries (damping : ℚ)
  | iterateDiffuse (iterations : ℕ) (alpha beta : ℚ)
  | project (iterations : ℕ)
  deriving DecidableEq, Repr

/-- The diffusion `alpha` that `FluidSolverGPU.step` computes:
`((1/width) * (1/width)) / (viscosity * dt)`. -/
def gpuStepDiffAlpha (width viscosity dt : ℚ) : ℚ :=
  ((1 / width) * (1 / width)) / (viscosity * dt)

/-- The diffusion `beta` that `FluidSolverGPU.step` computes: `4 + alpha`. -/
def gpuStepDiffBeta (width viscosity dt : ℚ) : ℚ :=
  4 + gpuStepDiffAlpha width viscosity dt

/-- The exact call sequence of `FluidSolverGPU.step(dt)` (FluidSolverGPU.ts,
lines 639–667).  `viscosity` is the literal `0.001`, so the `viscosity > 0`
branch is always taken. -/
def gpuStepTrace (width dt : ℚ) : List GpuOp :=
  [ .advect .velocity .velocity 1
  , .enforceBoundaries (99/100)
  , .iterateDiffuse 20 (gpuStepDiffAlpha width (1/1000) dt)
      (gpuStepDiffBeta width (1/1000) dt)
  , .enforceBoundaries (99/100)
  , .project 50
  , .enforceBoundaries (99/100)
  , .advect .density .velocity (999/1000) ]

/-! Abstract operator stages, to compare the traces against the claimed
pipeline `velocity-diffuse → boundary-enforce → velocity-advect(self) →
boundary-enforce → project → boundary-enforce → density-diffuse →
density-advect`. -/

/-- The operator stages the specification's pipeline sentence names. -/
inductive Stage
  | velDiffuse | boundary | velAdvect | project | densDiffuse | densAdvect
  deriving DecidableEq, Repr

/-- The pipeline the specification claims for one `step(dt)`. -/
def claimedPipeline : List Stage :=
  [ .velDiffuse, .boundary, .velAdvect, .boundary, .project, .boundary
  , .densDiffuse, .densAdvect ]

/-- Map a CPU operator call to its abstract stage. -/
def cpuStageOf : CpuOp → Stage
  | .diffuse _ .prevD _ _ => .densDiffuse
  | .diffuse _ .currD _ _ => .densDiffuse
  | .diffuse _ _ _ _ => .velDiffuse
  | .project _ _ _ _ => .project
  | .advect _ .currD _ _ _ => .densAdvect
  | .advect _ .prevD _ _ _ => .densAdvect
  | .advect _ _ _ _ _ => .velAdvect

/-- Map a GPU operator call to its abstract stage. -/
def gpuStageOf : GpuOp → Stage
  | .advect .density _ _ => .densAdvect
  | .advect _ _ _ => .velAdvect
  | .enforceBoundaries _ => .boundary
  | .iterateDiffuse _ _ _ => .velDiffuse
  | .project _ => .project

/-- The CPU step as a stage sequence. -/
def cpuStages : List Stage := cpuStepTrace.map cpuStageOf

/-- The GPU step as a stage sequence (independent of `width`, `dt`). -/
def gpuStages : List Stage := (gpuStepTrace 64 1).map gpuStageOf

/-! ## Sequential solver (`FluidSolver.ts`)

`GRID_PADDING` is the literal `2`; every buffer has
`(GRID_RES + 2) * (GRID_RES + 2)` samples, addressed through `idx2Dto1D`.
Buffers are modelled as total functions `ℤ → ℚ`. -/

/-- `idx2Dto1D(y, x) = x + y * (GRID_RES + GRID_PADDING)` with
`GRID_PADDING = 2`. -/
def idx2Dto1D (N y x : ℤ) : ℤ := x + y * (N + 2)

/-- `clamp` as the source writes it: `Math.max(lo, Math.min(v, hi))`. -/
def clampQ (lo hi v : ℚ) : ℚ := max lo (min v hi)

/-- Decode a 1-D buffer index back to its row (`idx2Dto1D` is
`col + row * (N+2)` with `0 ≤ col < N+2` on the allocated grid). -/
def rowOf (N idx : ℤ) : ℤ := idx / (N + 2)

/-- Decode a 1-D buffer index back to its column. -/
def colOf (N idx : ℤ) : ℤ := idx % (N + 2)

/-- First phase of `set_bnd` (`FluidSolver.ts` 76–87): overwrite the top
row `0` and the bottom row `N+1`, columns `1..N`, with the adjacent
interior row's value, negated when `b = 2`. -/
def setBndTopBottom (N b : ℤ) (x : ℤ → ℚ) : ℤ → ℚ := fun idx =>
  let row := rowOf N idx
  let col := colOf N idx
  if (row = 0 ∨ row = N + 1) ∧ 1 ≤ col ∧ col ≤ N then
    (if b = 2 then -1 else 1) * x (idx2Dto1D N (if row = 0 then 1 else N) col)
  else x idx

/-- Second phase of `set_bnd` (`FluidSolver.ts` 89–99): overwrite the left
column `0` and the right column `N+1`, rows `1..N`, with the adjacent
interior column's value, negated when `b = 1`. -/
def setBndLeftRight (N b : ℤ) (x : ℤ → ℚ) : ℤ → ℚ := fun idx =>
  let row := rowOf N idx
  let col := colOf N idx
  if (col = 0 ∨ col = N + 1) ∧ 1 ≤ row ∧ row ≤ N then
    (if b = 1 then -1 else 1) * x (idx2Dto1D N row (if col = 0 then 1 else N))
  else x idx

/-- Third phase of `set_bnd` (`FluidSolver.ts` 101–116): the four corner
cells average their two edge neighbours (reading the already-updated
edges). -/
def setBndCorners (N : ℤ) (x : ℤ → ℚ) : ℤ → ℚ := fun idx =>
  if idx = idx2Dto1D N 0 0 then
    1/2 * (x (idx2Dto1D N 1 0) + x (idx2Dto1D N 0 1))
  else if idx = idx2Dto1D N 0 (N + 1) then
    1/2 * (x (idx2Dto1D N 1 (N + 1)) + x (idx2Dto1D N 0 N))
  else if idx = idx2Dto1D N (N + 1) 0 then
    1/2 * (x (idx2Dto1D N N 0) + x (idx2Dto1D N (N + 1) 1))
  else if idx = idx2Dto1D N (N + 1) (N + 1) then
    1/2 * (x (idx2Dto1D N N (N + 1)) + x (idx2Dto1D N (N + 1) N))
  else x idx

/-- `set_bnd(b, x)`: the three in-place phases in source order. -/
def setBnd (N b : ℤ) (x : ℤ → ℚ) : ℤ → ℚ :=
  setBndCorners N (setBndLeftRight N b (setBndTopBottom N b x))

/-- One cell update of `linSolve` (`FluidSolver.ts` 135–142):
`curr[idx] = (prev[idx] + a * (up + down + left + right)) / c`. -/
def linSolveUpdate (a c prevC up down left right : ℚ) : ℚ :=
  (prevC + a * (up + down + left + right)) / c

/-- The `a` coefficient `diffuse` passes to `linSolve`
(`FluidSolver.ts` 202): `dt * diff * GRID_RES * GRID_RES`. -/
def cpuDiffuseA (dt diff N : ℚ) : ℚ := dt * diff * N * N

/-- The `c` coefficient `diffuse` passes to `linSolve`
(`FluidSolver.ts` 203): `1 + 4 * a`. -/
def cpuDiffuseC (dt diff N : ℚ) : ℚ := 1 + 4 * cpuDiffuseA dt diff N

/-- The `(a, c)` pair `project` passes to `linSolve` for the pressure
solve (`FluidSolver.ts` 232): `linSolve(0, p, div, 1, 4)`. -/
def cpuPressureCoeffs : ℚ × ℚ := (1, 4)

/-- The divergence value `project` stores at interior cell `(row, col)`
(`FluidSolver.ts` 217–223):
`-0.5 * (vy[row+1] - vy[row-1] + vx[col+1] - vx[col-1]) / GRID_RES`. -/
def cpuDivergence (N : ℤ) (velX velY : ℤ → ℚ) (row col : ℤ) : ℚ :=
  -1/2 * (velY (idx2Dto1D N (row + 1) col) - velY (idx2Dto1D N (row - 1) col)
      + velX (idx2Dto1D N row (col + 1)) - velX (idx2Dto1D N row (col - 1)))
    / (N : ℚ)

/-- The backtraced and clamped `x` coordinate of `advect`
(`FluidSolver.ts` 160–168): `x = col - dt*N*velX[idx]` clamped to
`[0.5, N + 0.5]`. -/
def cpuBtX (N : ℤ) (velX : ℤ → ℚ) (dt : ℚ) (row col : ℤ) : ℚ :=
  clampQ (1/2) ((N : ℚ) + 1/2) ((col : ℚ) - dt * N * velX (idx2Dto1D N row col))

/-- The backtraced and clamped `y` coordinate of `advect`
(`FluidSolver.ts` 160–169). -/
def cpuBtY (N : ℤ) (velY : ℤ → ℚ) (dt : ℚ) (row col : ℤ) : ℚ :=
  clampQ (1/2) ((N : ℚ) + 1/2) ((row : ℚ) - dt * N * velY (idx2Dto1D N row col))

/-- The bilinear interpolation `advect` writes at interior cell
`(row, col)` (`FluidSolver.ts` 171–189). -/
def cpuAdvectCell (N : ℤ) (prevVal velX velY : ℤ → ℚ) (dt : ℚ)
    (row col : ℤ) : ℚ :=
  let x := cpuBtX N velX dt row col
  let y := cpuBtY N velY dt row col
  let i0 := ⌊x⌋
  let i1 := i0 + 1
  let j0 := ⌊y⌋
  let j1 := j0 + 1
  let s1 := x - i0
  let s0 := 1 - s1
  let t1 := y - j0
  let t0 := 1 - t1
  s0 * (t0 * prevVal (idx2Dto1D N j0 i0) + t1 * prevVal (idx2Dto1D N j1 i0))
    + s1 * (t0 * prevVal (idx2Dto1D N j0 i1) + t1 * prevVal (idx2Dto1D N j1 i1))

/-- `advect(b, next, prev, velX, velY, dt)`: every interior cell gets the
bilinear sample of its backtrace, then `set_bnd(b, next)` rewrites the
padding ring.  Non-interior cells keep `next`'s prior contents (the loop
never writes them); the result is the post-`set_bnd` buffer. -/
def cpuAdvect (N b : ℤ) (next prevVal velX velY : ℤ → ℚ) (dt : ℚ) : ℤ → ℚ :=
  setBnd N b fun idx =>
    let row := rowOf N idx
    let col := colOf N idx
    if 1 ≤ row ∧ row ≤ N ∧ 1 ≤ col ∧ col ≤ N then
      cpuAdvectCell N prevVal velX velY dt row col
    else next idx

/-! ## GPU shader embeddings (`fluidShaders.ts`)

Textures are `W × H` grids of samples, modelled as total functions over
`ℤ × ℤ`; `CLAMP_TO_EDGE` wrapping clamps each index into `[0, W-1]`
(resp. `[0, H-1]`).  A fragment writing cell `(i, j)` runs with
`v_texCoord` at that texel's center `((i + 0.5)/W, (j + 0.5)/H)`; reading a
texture at a coordinate offset by whole texels therefore returns the
neighbouring texel's value (for `NEAREST` filtering directly, for `LINEAR`
filtering because the fractional parts vanish at texel centers), which the
stencil shaders below use.  The advection shader samples at arbitrary
coordinates, so UV-space `NEAREST` and `LINEAR` lookups are modelled in
full. -/

/-- `CLAMP_TO_EDGE`: clamp a texel index into `[0, W-1]`. -/
def clampIdx (W i : ℤ) : ℤ := max 0 (min i (W - 1))

/-- Read a scalar texture at integer texel `(i, j)` with edge clamping. -/
def texAt (W H : ℤ) (f : ℤ → ℤ → ℚ) (i j : ℤ) : ℚ :=
  f (clampIdx W i) (clampIdx H j)

/-- Read a two-component texture at integer texel `(i, j)` with edge
clamping. -/
def texAt2 (W H : ℤ) (f : ℤ → ℤ → ℚ × ℚ) (i j : ℤ) : ℚ × ℚ :=
  f (clampIdx W i) (clampIdx H j)

/-- The UV coordinate of texel `i`'s center in a row of `W` texels. -/
def texelCenter (W i : ℤ) : ℚ := ((i : ℚ) + 1/2) / (W : ℚ)

/-- `NEAREST`-filtered texture lookup at UV coordinate `(u, v)`. -/
def sampleNearest (W H : ℤ) (f : ℤ → ℤ → ℚ) (u v : ℚ) : ℚ :=
  texAt W H f ⌊u * W⌋ ⌊v * H⌋

/-- `LINEAR`-filtered (bilinear) texture lookup at UV coordinate
`(u, v)`: blend the four surrounding texels by the fractional position of
`(u, v)` in texel space. -/
def sampleLinear (W H : ℤ) (f : ℤ → ℤ → ℚ) (u v : ℚ) : ℚ :=
  let x := u * (W : ℚ) - 1/2
  let y := v * (H : ℚ) - 1/2
  let i0 := ⌊x⌋
  let j0 := ⌊y⌋
  let fx := x - (i0 : ℚ)
  let fy := y - (j0 : ℚ)
  (1 - fx) * ((1 - fy) * texAt W H f i0 j0 + fy * texAt W H f i0 (j0 + 1))
    + fx * ((1 - fy) * texAt W H f (i0 + 1) j0
        + fy * texAt W H f (i0 + 1) (j0 + 1))

/-- `LINEAR`-filtered lookup of a two-component texture (componentwise). -/
def sampleLinear2 (W H : ℤ) (f : ℤ → ℤ → ℚ × ℚ) (u v : ℚ) : ℚ × ℚ :=
  (sampleLinear W H (fun i j => (f i j).1) u v,
   sampleLinear W H (fun i j => (f i j).2) u v)

/-- `DIVERGENCE_SHADER` (obstacle-aware variant), per output cell `(i, j)`:
solid cells output `0`; otherwise sample the four neighbouring velocities,
zero any whose cell the obstacle mask marks solid (`> 0.1`), and output
`0.5 * (R - L + T - B)` of the x components left/right and y components
bottom/top. -/
def divergenceShader (W H : ℤ) (vel : ℤ → ℤ → ℚ × ℚ) (obst : ℤ → ℤ → ℚ)
    (i j : ℤ) : ℚ :=
  if texAt W H obst i j > 1/10 then 0
  else
    let L := (texAt2 W H vel (i - 1) j).1
    let R := (texAt2 W H vel (i + 1) j).1
    let B := (texAt2 W H vel i (j - 1)).2
    let T := (texAt2 W H vel i (j + 1)).2
    let L := if texAt W H obst (i - 1) j > 1/10 then 0 else L
    let R := if texAt W H obst (i + 1) j > 1/10 then 0 else R
    let B := if texAt W H obst i (j - 1) > 1/10 then 0 else B
    let T := if texAt W H obst i (j + 1) > 1/10 then 0 else T
    1/2 * (R - L + T - B)

/-- `ITERATE_SHADER`, per output cell: 4-neighbour Jacobi update
`(L + R + B + T + b*alpha) / beta`, substituting the center's own current
value for any solid neighbour (Neumann condition). -/
def iterateShader (W H : ℤ) (x b obst : ℤ → ℤ → ℚ) (alpha beta : ℚ)
    (i j : ℤ) : ℚ :=
  let L := texAt W H x (i - 1) j
  let R := texAt W H x (i + 1) j
  let B := texAt W H x i (j - 1)
  let T := texAt W H x i (j + 1)
  let bC := texAt W H b i j
  let xC := texAt W H x i j
  let L := if texAt W H obst (i - 1) j > 1/10 then xC else L
  let R := if texAt W H obst (i + 1) j > 1/10 then xC else R
  let B := if texAt W H obst i (j - 1) > 1/10 then xC else B
  let T := if texAt W H obst i (j + 1) > 1/10 then xC else T
  (L + R + B + T + bC * alpha) / beta

/-- `BOUNDARY_SHADER`, per output cell: solid cells output zero velocity;
a fluid cell applies, in source order, a one-sided clamp on the normal
component and a damping multiply on the tangential component for each of
its four neighbours that is solid. -/
def boundaryShader (W H : ℤ) (vel : ℤ → ℤ → ℚ × ℚ) (obst : ℤ → ℤ → ℚ)
    (damping : ℚ) (i j : ℤ) : ℚ × ℚ :=
  if texAt W H obst i j > 1/10 then (0, 0)
  else
    let velocity := texAt2 W H vel i j
    let oLeft := texAt W H obst (i - 1) j
    let oRight := texAt W H obst (i + 1) j
    let oBottom := texAt W H obst i (j - 1)
    let oTop := texAt W H obst i (j + 1)
    let v1 := if oLeft > 1/10 then (max velocity.1 0, velocity.2 * damping)
      else velocity
    let v2 := if oRight > 1/10 then (min v1.1 0, v1.2 * damping) else v1
    let v3 := if oBottom > 1/10 then (v2.1 * damping, max v2.2 0) else v2
    let v4 := if oTop > 1/10 then (v3.1 * damping, min v3.2 0) else v3
    v4

/-- The backtrace-retry loop of `ADVECT_SHADER` (source lines 298–318):
up to `fuel` attempts, each computing `p = pos - delta * stepFactor`,
keeping the first `p` the obstacle mask calls fluid, multiplying the step
factor by `0.8` after each failure; when all attempts fail the cell's own
coordinate `pos` is used. -/
def advectRetry (obstAt : ℚ × ℚ → ℚ) (pos delta : ℚ × ℚ) :
    ℕ → ℚ → ℚ × ℚ
  | 0, _ => pos
  | n + 1, stepFactor =>
    let p := (pos.1 - delta.1 * stepFactor, pos.2 - delta.2 * stepFactor)
    if obstAt p > 1/10 then advectRetry obstAt pos delta n (stepFactor * (8/10))
    else p

/-- The coordinate at which `ADVECT_SHADER` finally samples `u_source`
for a fluid output cell at UV position `pos` whose (texel-center) velocity
sample is `velAtPos`: the plain backtrace when it lands in fluid,
otherwise the result of the retry loop started at factor `0.9`. -/
def advectSrcCoord (W H : ℤ) (obst : ℤ → ℤ → ℚ) (velAtPos : ℚ × ℚ)
    (dt : ℚ) (pos : ℚ × ℚ) : ℚ × ℚ :=
  let prev := (pos.1 - velAtPos.1 * dt * (1 / (W : ℚ)),
               pos.2 - velAtPos.2 * dt * (1 / (H : ℚ)))
  if sampleNearest W H obst prev.1 prev.2 > 1/10 then
    advectRetry (fun p => sampleNearest W H obst p.1 p.2) pos
      (prev.1 - pos.1, prev.2 - pos.2) 5 (9/10)
  else prev

/-- `ADVECT_SHADER`, per output cell `(i, j)`, for one scalar channel of
`u_source`: solid cells output `0`; fluid cells bilinearly sample the
source at the (possibly retried) backtrace coordinate and scale by the
dissipation factor. -/
def advectShaderCell (W H : ℤ) (vel : ℤ → ℤ → ℚ × ℚ) (src obst : ℤ → ℤ → ℚ)
    (dt dissipation : ℚ) (i j : ℤ) : ℚ :=
  let pos := (texelCenter W i, texelCenter H j)
  if sampleNearest W H obst pos.1 pos.2 > 1/10 then 0
  else
    let velocity := sampleLinear2 W H vel pos.1 pos.2
    let coord := advectSrcCoord W H obst velocity dt pos
    dissipation * sampleLinear W H src coord.1 coord.2

/-- The curl-magnitude gradient of `VORTICITY_SHADER` (step 1):
`0.5 * (|curl R| - |curl L|, |curl T| - |curl B|)`. -/
def vortGradient (W H : ℤ) (curl : ℤ → ℤ → ℚ) (i j : ℤ) : ℚ × ℚ :=
  let L := |texAt W H curl (i - 1) j|
  let R := |texAt W H curl (i + 1) j|
  let B := |texAt W H curl i (j - 1)|
  let T := |texAt W H curl i (j + 1)|
  ((R - L) * (1/2), (T - B) * (1/2))

/-- The guarded normalization of `VORTICITY_SHADER` (step 2): divide the
gradient by its Euclidean length only when that length exceeds `0.0001`;
otherwise leave the gradient as is. -/
noncomputable def vortNormalize (g : ℝ × ℝ) : ℝ × ℝ :=
  let len := Real.sqrt (g.1 ^ 2 + g.2 ^ 2)
  if len > 1/10000 then (g.1 / len, g.2 / len) else g

/-- `VORTICITY_SHADER`, per output cell: solid cells output zero velocity;
fluid cells add `forceDir * C * strength * dt` to their velocity, where
`forceDir` is the 90°-rotated guarded-normalized curl-magnitude gradient
and `C` the signed curl at the cell. -/
noncomputable def vorticityShader (W H : ℤ) (vel : ℤ → ℤ → ℚ × ℚ)
    (curl obst : ℤ → ℤ → ℚ) (dt strength : ℚ) (i j : ℤ) : ℝ × ℝ :=
  if texAt W H obst i j > 1/10 then (0, 0)
  else
    let g := vortGradient W H curl i j
    let gn := vortNormalize ((g.1 : ℝ), (g.2 : ℝ))
    let forceDir := (gn.2, -gn.1)
    let C := texAt W H curl i j
    let v := texAt2 W H vel i j
    ((v.1 : ℝ) + forceDir.1 * (C : ℝ) * (strength : ℝ) * (dt : ℝ),
     (v.2 : ℝ) + forceDir.2 * (C : ℝ) * (strength : ℝ) * (dt : ℝ))

/-! ## Construction (`FluidSolver` constructor, `FluidSolverGPU` constructor)

The repository code performs no explicit dimension validation; failure for
bad dimensions comes from the host APIs it calls (`new ImageData` on the
CPU path, framebuffer-completeness checking on the GPU path), which are
modelled here after their platform specifications. -/

/-- An `ImageData` object (width, height, zero-filled RGBA data). -/
structure ImageData where
  width : ℤ
  height : ℤ
  data : ℕ → ℚ

/-- Host API model: `new ImageData(sw, sh)`.  Per the WHATWG canvas
specification this throws `IndexSizeError` when either dimension is zero,
and a negative argument is converted to an unsigned size in the billions
whose pixel buffer cannot be allocated; every non-positive dimension
therefore raises an error to the caller. -/
def imageDataNew (w h : ℤ) : Except String ImageData :=
  if w ≤ 0 ∨ h ≤ 0 then .error "IndexSizeError"
  else .ok { width := w, height := h, data := fun _ => 0 }

/-- Host API model: `new Float32Array(n)` — a zero-filled buffer
(`RangeError` on a negative length). -/
def float32ArrayNew (n : ℤ) : Except String (ℤ → ℚ) :=
  if n < 0 then .error "RangeError" else .ok fun _ => 0

/-- The `FluidSolver` instance: `GRID_RES` plus the six field buffers and
the `ImageData` used for rendering. -/
structure CpuSolver where
  GRID_RES : ℤ
  prev_density : ℤ → ℚ
  curr_density : ℤ → ℚ
  prev_velocityX : ℤ → ℚ
  curr_velocityX : ℤ → ℚ
  prev_velocityY : ℤ → ℚ
  curr_velocityY : ℤ → ℚ
  imageData : ImageData

/-- The `FluidSolver` constructor (`FluidSolver.ts` 18–34): allocate six
`Float32Array`s of `(resolution + GRID_PADDING)²` samples and an
`ImageData` of `resolution × resolution`. -/
def cpuConstructor (resolution : ℤ) : Except String CpuSolver := do
  let size := (resolution + 2) * (resolution + 2)
  let pd ← float32ArrayNew size
  let cd ← float32ArrayNew size
  let pvx ← float32ArrayNew size
  let cvx ← float32ArrayNew size
  let pvy ← float32ArrayNew size
  let cvy ← float32ArrayNew size
  let img ← imageDataNew resolution resolution
  pure { GRID_RES := resolution, prev_density := pd, curr_density := cd
       , prev_velocityX := pvx, curr_velocityX := cvx
       , prev_velocityY := pvy, curr_velocityY := cvy, imageData := img }

/-- The WebGL capabilities `FluidSolverGPU`'s constructor queries. -/
structure GLSupport where
  webgl2 : Bool
  extColorBufferFloat : Bool
  oesTextureFloatLinear : Bool
  deriving DecidableEq

/-- An RGBA32F texel. -/
abbrev Texel := ℚ × ℚ × ℚ × ℚ

/-- Host API model: `GPUResources.createFramebuffer(width, height)`.
`texImage2D` with a null pixel source zero-initializes the texture, and
with `EXT_color_buffer_float` present an `RGBA32F` attachment of positive
dimensions is framebuffer-complete; a zero or negative dimension leaves
the attachment incomplete and the method throws
`"Framebuffer incomplete"`. -/
def createFramebufferGPU (floatRenderable : Bool) (w h : ℤ) :
    Except String (ℤ → ℤ → Texel) :=
  if 0 < w ∧ 0 < h ∧ floatRenderable then .ok fun _ _ => (0, 0, 0, 0)
  else .error "Framebuffer incomplete"

/-- The `FluidSolverGPU` instance's field buffers (texture contents). -/
structure GpuSolver where
  width : ℤ
  height : ℤ
  velocityRead : ℤ → ℤ → Texel
  velocityWrite : ℤ → ℤ → Texel
  densityRead : ℤ → ℤ → Texel
  densityWrite : ℤ → ℤ → Texel
  divergenceTex : ℤ → ℤ → Texel
  pressureRead : ℤ → ℤ → Texel
  pressureWrite : ℤ → ℤ → Texel
  curlTex : ℤ → ℤ → Texel
  obstaclesTex : ℤ → ℤ → Texel

/-- The `FluidSolverGPU` constructor (FluidSolverGPU.ts 56–139): require
WebGL2, `EXT_color_buffer_float` and `OES_texture_float_linear`, then
allocate the double-buffered velocity/density/pressure fields and the
divergence, curl and obstacle textures.  (Shader program creation is not
modelled: the shader sources are fixed string constants that compile.) -/
def gpuConstructor (s : GLSupport) (width height : ℤ) :
    Except String GpuSolver := do
  if !s.webgl2 then throw "WebGL2 not supported"
  if !s.extColorBufferFloat then throw "EXT_color_buffer_float not supported"
  if !s.oesTextureFloatLinear then throw "OES_texture_float_linear not supported"
  let fr := s.extColorBufferFloat
  let velR ← createFramebufferGPU fr width height
  let velW ← createFramebufferGPU fr width height
  let denR ← createFramebufferGPU fr width height
  let denW ← createFramebufferGPU fr width height
  let div ← createFramebufferGPU fr width height
  let prR ← createFramebufferGPU fr width height
  let prW ← createFramebufferGPU fr width height
  let curl ← createFramebufferGPU fr width height
  let obst ← createFramebufferGPU fr width height
  pure { width := width, height := height
       , velocityRead := velR, velocityWrite := velW
       , densityRead := denR, densityWrite := denW
       , divergenceTex := div, pressureRead := prR, pressureWrite := prW
       , curlTex := curl, obstaclesTex := obst }

/-- The `(alpha, beta)` pair `FluidSolverGPU.project` passes to `iterate`
for the pressure solve (FluidSolverGPU.ts 449): `(-1.0, 4.0)`. -/
def gpuProjectCoeffs : ℚ × ℚ := (-1, 4)

/-! ## Spec-side definitions (for refinement comparisons) -/

/-- Spec-modelled for C2's wording: the x velocity component at a cell,
with "any masked-solid neighbor's velocity component as zero". -/
def maskedVelX (W H : ℤ) (vel : ℤ → ℤ → ℚ × ℚ) (obst : ℤ → ℤ → ℚ)
    (i j : ℤ) : ℚ :=
  if texAt W H obst i j > 1/10 then 0 else (texAt2 W H vel i j).1

/-- Spec-modelled for C2's wording: the y velocity component at a cell,
zeroed when the obstacle mask marks the cell solid. -/
def maskedVelY (W H : ℤ) (vel : ℤ → ℤ → ℚ × ℚ) (obst : ℤ → ℤ → ℚ)
    (i j : ℤ) : ℚ :=
  if texAt W H obst i j > 1/10 then 0 else (texAt2 W H vel i j).2

/-! ## Theorems -/

/-- **C8**: `swap()` on a double-buffer is an involution — two swaps
restore the original read/write identity — and a single swap exchanges the
read and write identities wholesale, leaving every sample of both buffers'
data untouched. -/
theorem swap_involution_no_copy (d : DoubleFramebuffer) :
    d.swap.swap = d ∧ d.swap.read = d.write ∧ d.swap.write = d.read ∧
    (∀ n, d.swap.read.data n = d.write.data n) ∧
    (∀ n, d.swap.write.data n = d.read.data n) :=
  ⟨rfl, rfl, rfl, fun _ => rfl, fun _ => rfl⟩

/-- **C1, counterexample**: neither execution path runs the claimed
pipeline.  The sequential `step` applies `project` twice (once between
diffusion and advection and once after advection), and the parallel `step`
advects velocity before diffusing it and has no density-diffuse stage. -/
theorem step_pipeline_counterexample :
    cpuStages ≠ claimedPipeline ∧ cpuStages.count Stage.project = 2 ∧
    gpuStages ≠ claimedPipeline := by
  decide

/-- **C1, amended**: for every `dt`, one sequential `step(dt)` performs
velocity-diffuse (x then y), project, velocity-advect by the pre-advection
velocity (x then y), project again, density-diffuse, density-advect —
`project` exactly twice, boundary enforcement living inside each operator
via `set_bnd`; one parallel `step(dt)` performs velocity-advect(self),
boundary-enforce, velocity-diffuse, boundary-enforce, project,
boundary-enforce, density-advect, with no density-diffuse stage. -/
theorem step_operator_sequences :
    cpuStages = [.velDiffuse, .velDiffuse, .project, .velAdvect, .velAdvect,
      .project, .densDiffuse, .densAdvect] ∧
    (∀ width dt : ℚ, (gpuStepTrace width dt).map gpuStageOf =
      [.velAdvect, .boundary, .velDiffuse, .boundary, .project, .boundary,
       .densAdvect]) := by
  exact ⟨by decide, fun _ _ => rfl⟩

/-- **C2, amended**: the parallel path's obstacle-aware divergence pass
outputs, at every fluid cell, `0.5 * ((v.x_right − v.x_left) +
(v.y_top − v.y_bottom))` computed from the neighbour velocities with any
masked-solid neighbour's component replaced by zero, and outputs exactly
`0` at every solid cell; the sequential `project`'s divergence sub-step
instead stores the same central difference negated and scaled by
`1/GRID_RES`, with no obstacle masking. -/
theorem divergence_shader_spec (W H : ℤ) (vel : ℤ → ℤ → ℚ × ℚ)
    (obst : ℤ → ℤ → ℚ) (i j : ℤ) :
    (texAt W H obst i j > 1/10 → divergenceShader W H vel obst i j = 0) ∧
    (¬ texAt W H obst i j > 1/10 →
      divergenceShader W H vel obst i j =
        1/2 * ((maskedVelX W H vel obst (i + 1) j
            - maskedVelX W H vel obst (i - 1) j)
          + (maskedVelY W H vel obst i (j + 1)
            - maskedVelY W H vel obst i (j - 1)))) ∧
    (∀ (N : ℤ) (velX velY : ℤ → ℚ) (row col : ℤ),
      cpuDivergence N velX velY row col =
        -(1/2 * ((velX (idx2Dto1D N row (col + 1))
            - velX (idx2Dto1D N row (col - 1)))
          + (velY (idx2Dto1D N (row + 1) col)
            - velY (idx2Dto1D N (row - 1) col)))) / (N : ℚ)) := by
  refine ⟨?_, ?_, ?_⟩
  · intro h
    unfold divergenceShader
    rw [if_pos h]
  · intro h
    unfold divergenceShader maskedVelX maskedVelY
    simp only [if_neg h]
    split_ifs <;> ring
  · intro N velX velY row col
    unfold cpuDivergence
    ring

/-- **C2, counterexample**: on the sequential path the stored divergence
is not `0.5 * ((v.x_right − v.x_left) + (v.y_top − v.y_bottom))`: with
`GRID_RES = 2` and the buffer holding its own index, the code stores
`-5/2` while the claimed formula gives `5`. -/
theorem cpu_divergence_counterexample :
    cpuDivergence 2 (fun idx => (idx : ℚ)) (fun idx => (idx : ℚ)) 1 1 =
      -5/2 ∧
    1/2 * ((((idx2Dto1D 2 1 2 : ℤ) : ℚ) - ((idx2Dto1D 2 1 0 : ℤ) : ℚ))
      + (((idx2Dto1D 2 2 1 : ℤ) : ℚ) - ((idx2Dto1D 2 0 1 : ℤ) : ℚ))) = 5 ∧
    (-5/2 : ℚ) ≠ 5 := by
  refine ⟨?_, ?_, by norm_num⟩
  · norm_num [cpuDivergence, idx2Dto1D]
  · norm_num [idx2Dto1D]

/-- Witness for `divergence_shader_spec`: a concrete 3×3 grid whose left
column is solid; the center cell is fluid and its divergence combines the
masked neighbour components. -/
theorem divergence_shader_spec_witness :
    (¬ texAt 3 3 (fun i _ => if i = 0 then 1 else 0) 1 1 > 1/10) ∧
    divergenceShader 3 3 (fun i j => ((i : ℚ), (j : ℚ)))
      (fun i _ => if i = 0 then 1 else 0) 1 1 =
      1/2 * ((maskedVelX 3 3 (fun i j => ((i : ℚ), (j : ℚ)))
          (fun i _ => if i = 0 then 1 else 0) 2 1
        - maskedVelX 3 3 (fun i j => ((i : ℚ), (j : ℚ)))
          (fun i _ => if i = 0 then 1 else 0) 0 1)
      + (maskedVelY 3 3 (fun i j => ((i : ℚ), (j : ℚ)))
          (fun i _ => if i = 0 then 1 else 0) 1 2
        - maskedVelY 3 3 (fun i j => ((i : ℚ), (j : ℚ)))
          (fun i _ => if i = 0 then 1 else 0) 1 0)) := by
  have hfluid : ¬ texAt 3 3 (fun i _ => if i = 0 then (1 : ℚ) else 0) 1 1
      > 1/10 := by
    norm_num [texAt, clampIdx]
  exact ⟨hfluid, (divergence_shader_spec 3 3 (fun i j => ((i : ℚ), (j : ℚ)))
    (fun i _ => if i = 0 then 1 else 0) 1 1).2.1 hfluid⟩

/-- **C5, counterexample**: the parallel path's velocity diffusion in
`step` is not configured with `alpha = dt·rate·N²` and `beta = 1 + 4·alpha`.
At `width = 64`, `dt = 1`, `viscosity = 0.001` the code computes
`alpha = (1/64)²/0.001 = 125/512`, while `dt·rate·N² = 512/125`. -/
theorem gpu_diffusion_coeffs_counterexample :
    ¬ (gpuStepDiffAlpha 64 (1/1000) 1 = cpuDiffuseA 1 (1/1000) 64 ∧
       gpuStepDiffBeta 64 (1/1000) 1 = 1 + 4 * cpuDiffuseA 1 (1/1000) 64) := by
  unfold gpuStepDiffAlpha gpuStepDiffBeta cpuDiffuseA
  norm_num

/-- **C5, amended**: in the sequential path diffusion is configured with
`a = dt·rate·N²`, coefficients `(a, 1 + 4a)`, so each sweep computes
`x = (b + a·neighbour_sum) / (1 + 4a)`, and its pressure solve passes
`(a, c) = (1, 4)` applied to the pre-negated scaled divergence; the
parallel path's pressure solve is configured with `alpha = -1, beta = 4`
(one Jacobi pass computing `(L + R + B + T − div) / 4` away from
obstacles), but its `step`'s velocity diffusion is configured with
`alpha = texelSize²/(viscosity·dt)` and `beta = 4 + alpha`, not with
`a = dt·rate·N²`. -/
theorem relaxation_coefficient_configuration (dt diff N w visc : ℚ) :
    cpuDiffuseA dt diff N = dt * diff * N * N ∧
    cpuDiffuseC dt diff N = 1 + 4 * cpuDiffuseA dt diff N ∧
    (∀ prevC up down left right : ℚ,
      linSolveUpdate (cpuDiffuseA dt diff N) (cpuDiffuseC dt diff N)
          prevC up down left right =
        (prevC + cpuDiffuseA dt diff N * (up + down + left + right))
          / (1 + 4 * cpuDiffuseA dt diff N)) ∧
    cpuPressureCoeffs = (1, 4) ∧
    gpuProjectCoeffs = (-1, 4) ∧
    (∀ (W H : ℤ) (x b obst : ℤ → ℤ → ℚ) (i j : ℤ),
      (¬ texAt W H obst (i - 1) j > 1/10) →
      (¬ texAt W H obst (i + 1) j > 1/10) →
      (¬ texAt W H obst i (j - 1) > 1/10) →
      (¬ texAt W H obst i (j + 1) > 1/10) →
      iterateShader W H x b obst (-1) 4 i j =
        (texAt W H x (i - 1) j + texAt W H x (i + 1) j
          + texAt W H x i (j - 1) + texAt W H x i (j + 1)
          - texAt W H b i j) / 4) ∧
    gpuStepDiffAlpha w visc dt = ((1/w) * (1/w)) / (visc * dt) ∧
    gpuStepDiffBeta w visc dt = 4 + gpuStepDiffAlpha w visc dt := by
  refine ⟨rfl, rfl, ?_, rfl, rfl, ?_, rfl, rfl⟩
  · intro prevC up down left right
    unfold linSolveUpdate cpuDiffuseC
    ring_nf
  · intro W H x b obst i j hL hR hB hT
    unfold iterateShader
    simp only [if_neg hL, if_neg hR, if_neg hB, if_neg hT]
    ring

/-- Witness for `relaxation_coefficient_configuration`: instantiated on a
concrete obstacle-free grid and concrete coefficients. -/
theorem relaxation_coefficient_configuration_witness :
    linSolveUpdate (cpuDiffuseA 1 2 3) (cpuDiffuseC 1 2 3) 5 1 2 3 4 =
      (5 + cpuDiffuseA 1 2 3 * (1 + 2 + 3 + 4))
        / (1 + 4 * cpuDiffuseA 1 2 3) ∧
    iterateShader 3 3 (fun i j => (i : ℚ) + j) (fun _ _ => 7)
      (fun _ _ => 0) (-1) 4 1 1 =
      (texAt 3 3 (fun i j => (i : ℚ) + j) 0 1
        + texAt 3 3 (fun i j => (i : ℚ) + j) 2 1
        + texAt 3 3 (fun i j => (i : ℚ) + j) 1 0
        + texAt 3 3 (fun i j => (i : ℚ) + j) 1 2
        - texAt 3 3 (fun (_ _ : ℤ) => (7 : ℚ)) 1 1) / 4 := by
  refine ⟨(relaxation_coefficient_configuration 1 2 3 1 1).2.2.1 5 1 2 3 4, ?_⟩
  exact (relaxation_coefficient_configuration 1 2 3 1 1).2.2.2.2.2.1
    3 3 (fun i j => (i : ℚ) + j) (fun _ _ => 7) (fun _ _ => 0) 1 1
    (by norm_num [texAt, clampIdx]) (by norm_num [texAt, clampIdx])
    (by norm_num [texAt, clampIdx]) (by norm_num [texAt, clampIdx])

/-- The four-step clamp/damp chain of `BOUNDARY_SHADER`'s fluid branch,
abstracted over the four "neighbour is solid" conditions. -/
def boundaryChain (oL oR oB oT : Prop) [Decidable oL] [Decidable oR]
    [Decidable oB] [Decidable oT] (damping : ℚ) (v : ℚ × ℚ) : ℚ × ℚ :=
  let v1 := if oL then (max v.1 0, v.2 * damping) else v
  let v2 := if oR then (min v1.1 0, v1.2 * damping) else v1
  let v3 := if oB then (v2.1 * damping, max v2.2 0) else v2
  let v4 := if oT then (v3.1 * damping, min v3.2 0) else v3
  v4

/-- `boundaryShader` at a fluid cell is `boundaryChain` of the four
neighbour-solid tests applied to the cell's own velocity. -/
theorem boundaryShader_fluid_eq_chain (W H : ℤ) (vel : ℤ → ℤ → ℚ × ℚ)
    (obst : ℤ → ℤ → ℚ) (damping : ℚ) (i j : ℤ)
    (h : ¬ texAt W H obst i j > 1/10) :
    boundaryShader W H vel obst damping i j =
      boundaryChain (texAt W H obst (i - 1) j > 1/10)
        (texAt W H obst (i + 1) j > 1/10) (texAt W H obst i (j - 1) > 1/10)
        (texAt W H obst i (j + 1) > 1/10) damping (texAt2 W H vel i j) := by
  unfold boundaryShader boundaryChain
  rw [if_neg h]

/-- A left-side wall leaves no leftward (negative-x) velocity after the
chain, whatever the other three walls are. -/
theorem boundaryChain_left (oL oR oB oT : Prop) [Decidable oL] [Decidable oR]
    [Decidable oB] [Decidable oT] (damping : ℚ) (v : ℚ × ℚ)
    (hd : 0 ≤ damping) (hL : oL) :
    0 ≤ (boundaryChain oL oR oB oT damping v).1 := by
  have hx : (0 : ℚ) ≤ max v.1 0 := le_max_right _ _
  have hm : (0 : ℚ) ≤ min (max v.1 0) 0 := le_min hx le_rfl
  unfold boundaryChain
  dsimp only
  by_cases h2 : oR <;> by_cases h3 : oB <;> by_cases h4 : oT <;>
    simp only [hL, h2, h3, h4, ite_true, ite_false, if_true, if_false]
  · exact mul_nonneg (mul_nonneg hm hd) hd
  · exact mul_nonneg hm hd
  · exact mul_nonneg hm hd
  · exact hm
  · exact mul_nonneg (mul_nonneg hx hd) hd
  · exact mul_nonneg hx hd
  · exact mul_nonneg hx hd
  · exact hx

/-- A right-side wall leaves no rightward (positive-x) velocity after the
chain. -/
theorem boundaryChain_right (oL oR oB oT : Prop) [Decidable oL]
    [Decidable oR] [Decidable oB] [Decidable oT] (damping : ℚ) (v : ℚ × ℚ)
    (hd : 0 ≤ damping) (hR : oR) :
    (boundaryChain oL oR oB oT damping v).1 ≤ 0 := by
  have hma : min (max v.1 0) 0 ≤ (0 : ℚ) := min_le_right _ _
  have hmb : min v.1 0 ≤ (0 : ℚ) := min_le_right _ _
  unfold boundaryChain
  dsimp only
  by_cases h1 : oL <;> by_cases h3 : oB <;> by_cases h4 : oT <;>
    simp only [h1, hR, h3, h4, ite_true, ite_false, if_true, if_false]
  · exact mul_nonpos_of_nonpos_of_nonneg
      (mul_nonpos_of_nonpos_of_nonneg hma hd) hd
  · exact mul_nonpos_of_nonpos_of_nonneg hma hd
  · exact mul_nonpos_of_nonpos_of_nonneg hma hd
  · exact hma
  · exact mul_nonpos_of_nonpos_of_nonneg
      (mul_nonpos_of_nonpos_of_nonneg hmb hd) hd
  · exact mul_nonpos_of_nonpos_of_nonneg hmb hd
  · exact mul_nonpos_of_nonpos_of_nonneg hmb hd
  · exact hmb

/-- A bottom-side wall leaves no downward (negative-y) velocity after the
chain. -/
theorem boundaryChain_bottom (oL oR oB oT : Prop) [Decidable oL]
    [Decidable oR] [Decidable oB] [Decidable oT] (damping : ℚ) (v : ℚ × ℚ)
    (hB : oB) :
    0 ≤ (boundaryChain oL oR oB oT damping v).2 := by
  unfold boundaryChain
  dsimp only
  by_cases h1 : oL <;> by_cases h2 : oR <;> by_cases h4 : oT <;>
    simp only [h1, h2, hB, h4, ite_true, ite_false, if_true, if_false]
  · exact le_min (le_max_right _ _) le_rfl
  · exact le_max_right _ _
  · exact le_min (le_max_right _ _) le_rfl
  · exact le_max_right _ _
  · exact le_min (le_max_right _ _) le_rfl
  · exact le_max_right _ _
  · exact le_min (le_max_right _ _) le_rfl
  · exact le_max_right _ _

/-- A top-side wall leaves no upward (positive-y) velocity after the
chain. -/
theorem boundaryChain_top (oL oR oB oT : Prop) [Decidable oL] [Decidable oR]
    [Decidable oB] [Decidable oT] (damping : ℚ) (v : ℚ × ℚ) (hT : oT) :
    (boundaryChain oL oR oB oT damping v).2 ≤ 0 := by
  unfold boundaryChain
  dsimp only
  by_cases h1 : oL <;> by_cases h2 : oR <;> by_cases h3 : oB <;>
    simp only [h1, h2, h3, hT, ite_true, ite_false, if_true, if_false]
  all_goals exact min_le_right _ _

/-- With exactly one solid neighbour the chain is the one-sided clamp of
the normal component paired with the damped tangential component. -/
theorem boundaryChain_single_wall (oL oR oB oT : Prop) [Decidable oL]
    [Decidable oR] [Decidable oB] [Decidable oT] (damping : ℚ) (v : ℚ × ℚ) :
    (oL → ¬ oR → ¬ oB → ¬ oT →
      boundaryChain oL oR oB oT damping v = (max v.1 0, v.2 * damping)) ∧
    (¬ oL → oR → ¬ oB → ¬ oT →
      boundaryChain oL oR oB oT damping v = (min v.1 0, v.2 * damping)) ∧
    (¬ oL → ¬ oR → oB → ¬ oT →
      boundaryChain oL oR oB oT damping v = (v.1 * damping, max v.2 0)) ∧
    (¬ oL → ¬ oR → ¬ oB → oT →
      boundaryChain oL oR oB oT damping v = (v.1 * damping, min v.2 0)) := by
  unfold boundaryChain
  refine ⟨fun h1 h2 h3 h4 => ?_, fun h1 h2 h3 h4 => ?_,
    fun h1 h2 h3 h4 => ?_, fun h1 h2 h3 h4 => ?_⟩ <;>
    simp only [h1, h2, h3, h4, if_true, if_false, ite_true, ite_false]

/-- **C4**: after one boundary-enforcement pass with a nonnegative damping
factor, every solid cell has velocity exactly `(0, 0)`; every fluid cell
adjacent to a solid neighbour has no velocity component pointing into that
wall (a left/bottom wall forces the normal component `≥ 0`, a right/top
wall forces it `≤ 0`, so the into-wall part is exactly `0`, by the
one-sided clamps `max(v, 0)` / `min(v, 0)`); and at a fluid cell with
exactly one solid neighbour the output is exactly the one-sided clamp of
the normal component paired with the damping-scaled tangential
component. -/
theorem boundary_shader_enforcement (W H : ℤ) (vel : ℤ → ℤ → ℚ × ℚ)
    (obst : ℤ → ℤ → ℚ) (damping : ℚ) (hd : 0 ≤ damping) (i j : ℤ) :
    (texAt W H obst i j > 1/10 →
      boundaryShader W H vel obst damping i j = (0, 0)) ∧
    (¬ texAt W H obst i j > 1/10 →
      (texAt W H obst (i - 1) j > 1/10 →
        0 ≤ (boundaryShader W H vel obst damping i j).1) ∧
      (texAt W H obst (i + 1) j > 1/10 →
        (boundaryShader W H vel obst damping i j).1 ≤ 0) ∧
      (texAt W H obst i (j - 1) > 1/10 →
        0 ≤ (boundaryShader W H vel obst damping i j).2) ∧
      (texAt W H obst i (j + 1) > 1/10 →
        (boundaryShader W H vel obst damping i j).2 ≤ 0) ∧
      (texAt W H obst (i - 1) j > 1/10 →
        ¬ texAt W H obst (i + 1) j > 1/10 →
        ¬ texAt W H obst i (j - 1) > 1/10 →
        ¬ texAt W H obst i (j + 1) > 1/10 →
        boundaryShader W H vel obst damping i j =
          (max (texAt2 W H vel i j).1 0,
           (texAt2 W H vel i j).2 * damping)) ∧
      (¬ texAt W H obst (i - 1) j > 1/10 →
        texAt W H obst (i + 1) j > 1/10 →
        ¬ texAt W H obst i (j - 1) > 1/10 →
        ¬ texAt W H obst i (j + 1) > 1/10 →
        boundaryShader W H vel obst damping i j =
          (min (texAt2 W H vel i j).1 0,
           (texAt2 W H vel i j).2 * damping)) ∧
      (¬ texAt W H obst (i - 1) j > 1/10 →
        ¬ texAt W H obst (i + 1) j > 1/10 →
        texAt W H obst i (j - 1) > 1/10 →
        ¬ texAt W H obst i (j + 1) > 1/10 →
        boundaryShader W H vel obst damping i j =
          ((texAt2 W H vel i j).1 * damping,
           max (texAt2 W H vel i j).2 0)) ∧
      (¬ texAt W H obst (i - 1) j > 1/10 →
        ¬ texAt W H obst (i + 1) j > 1/10 →
        ¬ texAt W H obst i (j - 1) > 1/10 →
        texAt W H obst i (j + 1) > 1/10 →
        boundaryShader W H vel obst damping i j =
          ((texAt2 W H vel i j).1 * damping,
           min (texAt2 W H vel i j).2 0))) := by
  constructor
  · intro h
    unfold boundaryShader
    rw [if_pos h]
  · intro h
    rw [boundaryShader_fluid_eq_chain W H vel obst damping i j h]
    refine ⟨fun hL => boundaryChain_left _ _ _ _ _ _ hd hL,
      fun hR => boundaryChain_right _ _ _ _ _ _ hd hR,
      fun hB => boundaryChain_bottom _ _ _ _ _ _ hB,
      fun hT => boundaryChain_top _ _ _ _ _ _ hT,
      fun h1 h2 h3 h4 => (boundaryChain_single_wall _ _ _ _ _ _).1 h1 h2 h3 h4,
      fun h1 h2 h3 h4 =>
        (boundaryChain_single_wall _ _ _ _ _ _).2.1 h1 h2 h3 h4,
      fun h1 h2 h3 h4 =>
        (boundaryChain_single_wall _ _ _ _ _ _).2.2.1 h1 h2 h3 h4,
      fun h1 h2 h3 h4 =>
        (boundaryChain_single_wall _ _ _ _ _ _).2.2.2 h1 h2 h3 h4⟩

/-- Witness for `boundary_shader_enforcement`: a concrete 3×3 grid, solid
left column, fluid center with inward (leftward) velocity `(-5, 2)`; the
pass zeroes the into-wall component and damps the tangential one. -/
theorem boundary_shader_enforcement_witness :
    (0 : ℚ) ≤ 99/100 ∧
    (¬ texAt 3 3 (fun i _ => if i = 0 then (1 : ℚ) else 0) 1 1 > 1/10) ∧
    texAt 3 3 (fun i _ => if i = 0 then (1 : ℚ) else 0) 0 1 > 1/10 ∧
    boundaryShader 3 3 (fun _ _ => (-5, 2))
      (fun i _ => if i = 0 then (1 : ℚ) else 0) (99/100) 1 1 =
      (max (-5 : ℚ) 0, (2 : ℚ) * (99/100)) := by
  have hd : (0 : ℚ) ≤ 99/100 := by norm_num
  have hc : ¬ texAt 3 3 (fun i _ => if i = 0 then (1 : ℚ) else 0) 1 1
      > 1/10 := by norm_num [texAt, clampIdx]
  have hL : texAt 3 3 (fun i _ => if i = 0 then (1 : ℚ) else 0) (1 - 1) 1
      > 1/10 := by norm_num [texAt, clampIdx]
  have hR : ¬ texAt 3 3 (fun i _ => if i = 0 then (1 : ℚ) else 0) (1 + 1) 1
      > 1/10 := by norm_num [texAt, clampIdx]
  have hB : ¬ texAt 3 3 (fun i _ => if i = 0 then (1 : ℚ) else 0) 1 (1 - 1)
      > 1/10 := by norm_num [texAt, clampIdx]
  have hT : ¬ texAt 3 3 (fun i _ => if i = 0 then (1 : ℚ) else 0) 1 (1 + 1)
      > 1/10 := by norm_num [texAt, clampIdx]
  have hmain := ((boundary_shader_enforcement 3 3 (fun _ _ => (-5, 2))
    (fun i _ => if i = 0 then (1 : ℚ) else 0) (99/100) hd 1 1).2
      hc).2.2.2.2.1 hL hR hB hT
  refine ⟨hd, hc, hL, ?_⟩
  rw [hmain]
  rfl

/-- Any cell whose row and column lie in `[0, N+1]` addresses a sample
inside the allocated `(N+2)²` buffer. -/
theorem idx2Dto1D_in_bounds (N j i : ℤ) (hN : 1 ≤ N) (hj0 : 0 ≤ j)
    (hj1 : j ≤ N + 1) (hi0 : 0 ≤ i) (hi1 : i ≤ N + 1) :
    0 ≤ idx2Dto1D N j i ∧ idx2Dto1D N j i < (N + 2) ^ 2 := by
  unfold idx2Dto1D
  constructor
  · nlinarith
  · nlinarith

/-- The clamp keeps its argument inside `[lo, hi]` whenever `lo ≤ hi`. -/
theorem clampQ_mem (lo hi v : ℚ) (h : lo ≤ hi) :
    lo ≤ clampQ lo hi v ∧ clampQ lo hi v ≤ hi :=
  ⟨le_max_left _ _, max_le h (min_le_right _ _)⟩

/-- The floor of a value clamped to `[1/2, N + 1/2]` lies in `[0, N]`. -/
theorem floor_clamp_bounds (N : ℤ) (hN : 1 ≤ N) (t : ℚ) :
    0 ≤ ⌊clampQ (1/2) ((N : ℚ) + 1/2) t⌋ ∧
    ⌊clampQ (1/2) ((N : ℚ) + 1/2) t⌋ ≤ N := by
  have hNQ : (1 : ℚ) ≤ (N : ℚ) := by exact_mod_cast hN
  obtain ⟨hlo, hhi⟩ := clampQ_mem (1/2) ((N : ℚ) + 1/2) t (by linarith)
  constructor
  · exact Int.le_floor.2 (by push_cast; linarith)
  · have : ⌊clampQ (1/2) ((N : ℚ) + 1/2) t⌋ < N + 1 :=
      Int.floor_lt.2 (by push_cast; linarith)
    omega

/-- **C10**: in the sequential `advect`, for every `dt`, every velocity
field and every interior cell, the backtraced coordinates are clamped to
`[0.5, GRID_RES + 0.5]` in both axes, so the four bilinear sample indices
lie in `[0, GRID_RES + 1]` and all four 1-D sample addresses stay inside
the allocated `(GRID_RES + GRID_PADDING)²` buffer, however large the
velocities are. -/
theorem cpu_advect_sample_indices_in_bounds (N : ℤ) (hN : 1 ≤ N)
    (velX velY : ℤ → ℚ) (dt : ℚ) (row col : ℤ)
    (hr1 : 1 ≤ row) (hr2 : row ≤ N) (hc1 : 1 ≤ col) (hc2 : col ≤ N) :
    (1/2 ≤ cpuBtX N velX dt row col ∧
      cpuBtX N velX dt row col ≤ (N : ℚ) + 1/2) ∧
    (1/2 ≤ cpuBtY N velY dt row col ∧
      cpuBtY N velY dt row col ≤ (N : ℚ) + 1/2) ∧
    (0 ≤ ⌊cpuBtX N velX dt row col⌋ ∧ ⌊cpuBtX N velX dt row col⌋ ≤ N) ∧
    (0 ≤ ⌊cpuBtY N velY dt row col⌋ ∧ ⌊cpuBtY N velY dt row col⌋ ≤ N) ∧
    (0 ≤ idx2Dto1D N ⌊cpuBtY N velY dt row col⌋ ⌊cpuBtX N velX dt row col⌋ ∧
      idx2Dto1D N ⌊cpuBtY N velY dt row col⌋ ⌊cpuBtX N velX dt row col⌋
        < (N + 2) ^ 2) ∧
    (0 ≤ idx2Dto1D N ⌊cpuBtY N velY dt row col⌋
        (⌊cpuBtX N velX dt row col⌋ + 1) ∧
      idx2Dto1D N ⌊cpuBtY N velY dt row col⌋
        (⌊cpuBtX N velX dt row col⌋ + 1) < (N + 2) ^ 2) ∧
    (0 ≤ idx2Dto1D N (⌊cpuBtY N velY dt row col⌋ + 1)
        ⌊cpuBtX N velX dt row col⌋ ∧
      idx2Dto1D N (⌊cpuBtY N velY dt row col⌋ + 1)
        ⌊cpuBtX N velX dt row col⌋ < (N + 2) ^ 2) ∧
    (0 ≤ idx2Dto1D N (⌊cpuBtY N velY dt row col⌋ + 1)
        (⌊cpuBtX N velX dt row col⌋ + 1) ∧
      idx2Dto1D N (⌊cpuBtY N velY dt row col⌋ + 1)
        (⌊cpuBtX N velX dt row col⌋ + 1) < (N + 2) ^ 2) := by
  unfold cpuBtX cpuBtY
  have hNQ : (1 : ℚ) ≤ (N : ℚ) := by exact_mod_cast hN
  have hxc := clampQ_mem (1/2) ((N : ℚ) + 1/2)
    ((col : ℚ) - dt * (N : ℚ) * velX (idx2Dto1D N row col)) (by linarith)
  have hyc := clampQ_mem (1/2) ((N : ℚ) + 1/2)
    ((row : ℚ) - dt * (N : ℚ) * velY (idx2Dto1D N row col)) (by linarith)
  have hxf := floor_clamp_bounds N hN
    ((col : ℚ) - dt * (N : ℚ) * velX (idx2Dto1D N row col))
  have hyf := floor_clamp_bounds N hN
    ((row : ℚ) - dt * (N : ℚ) * velY (idx2Dto1D N row col))
  refine ⟨hxc, hyc, hxf, hyf, ?_, ?_, ?_, ?_⟩ <;>
    exact idx2Dto1D_in_bounds N _ _ hN (by omega) (by omega) (by omega)
      (by omega)

/-- Witness for `cpu_advect_sample_indices_in_bounds`: a 2×2 grid with a
huge velocity still samples inside the 16-element buffer. -/
theorem cpu_advect_sample_indices_in_bounds_witness :
    (1 : ℤ) ≤ 2 ∧
    0 ≤ idx2Dto1D 2 ⌊cpuBtY 2 (fun _ => 1000000) 5 1 1⌋
        ⌊cpuBtX 2 (fun _ => 1000000) 5 1 1⌋ ∧
    idx2Dto1D 2 ⌊cpuBtY 2 (fun _ => 1000000) 5 1 1⌋
        ⌊cpuBtX 2 (fun _ => 1000000) 5 1 1⌋ < (2 + 2) ^ 2 := by
  refine ⟨by norm_num, ?_⟩
  exact (cpu_advect_sample_indices_in_bounds 2 (by norm_num)
    (fun _ => 1000000) (fun _ => 1000000) 5 1 1 (by norm_num) (by norm_num)
    (by norm_num) (by norm_num)).2.2.2.2.1

/-- **C9**: the vorticity-confinement normalization divides the
curl-magnitude gradient by its own length only when that length exceeds
`0.0001`; at or below the epsilon the gradient passes through untouched
(no division), and whenever the division does happen its result has unit
length — and the shader's force direction is exactly the 90°-rotation of
this guarded normalization. -/
theorem vorticity_normalization_guard (g : ℝ × ℝ) :
    (Real.sqrt (g.1 ^ 2 + g.2 ^ 2) ≤ 1/10000 → vortNormalize g = g) ∧
    (1/10000 < Real.sqrt (g.1 ^ 2 + g.2 ^ 2) →
      vortNormalize g =
        (g.1 / Real.sqrt (g.1 ^ 2 + g.2 ^ 2),
         g.2 / Real.sqrt (g.1 ^ 2 + g.2 ^ 2)) ∧
      (vortNormalize g).1 ^ 2 + (vortNormalize g).2 ^ 2 = 1) ∧
    (∀ (W H : ℤ) (vel : ℤ → ℤ → ℚ × ℚ) (curl obst : ℤ → ℤ → ℚ)
        (dt strength : ℚ) (i j : ℤ), ¬ texAt W H obst i j > 1/10 →
      vorticityShader W H vel curl obst dt strength i j =
        (((texAt2 W H vel i j).1 : ℝ)
          + (vortNormalize (((vortGradient W H curl i j).1 : ℝ),
              ((vortGradient W H curl i j).2 : ℝ))).2
            * ((texAt W H curl i j : ℚ) : ℝ) * ((strength : ℚ) : ℝ)
            * ((dt : ℚ) : ℝ),
         ((texAt2 W H vel i j).2 : ℝ)
          + (-(vortNormalize (((vortGradient W H curl i j).1 : ℝ),
              ((vortGradient W H curl i j).2 : ℝ))).1)
            * ((texAt W H curl i j : ℚ) : ℝ) * ((strength : ℚ) : ℝ)
            * ((dt : ℚ) : ℝ))) := by
  refine ⟨?_, ?_, ?_⟩
  · intro h
    unfold vortNormalize
    dsimp only
    rw [if_neg (not_lt.2 h)]
  · intro h
    have hpos : 0 < Real.sqrt (g.1 ^ 2 + g.2 ^ 2) := lt_trans (by norm_num) h
    have heq : vortNormalize g =
        (g.1 / Real.sqrt (g.1 ^ 2 + g.2 ^ 2),
         g.2 / Real.sqrt (g.1 ^ 2 + g.2 ^ 2)) := by
      unfold vortNormalize
      dsimp only
      rw [if_pos h]
    refine ⟨heq, ?_⟩
    rw [heq]
    have hsq : Real.sqrt (g.1 ^ 2 + g.2 ^ 2) ^ 2 = g.1 ^ 2 + g.2 ^ 2 :=
      Real.sq_sqrt (by positivity)
    have hne : Real.sqrt (g.1 ^ 2 + g.2 ^ 2) ^ 2 ≠ 0 := by positivity
    calc (g.1 / Real.sqrt (g.1 ^ 2 + g.2 ^ 2)) ^ 2
          + (g.2 / Real.sqrt (g.1 ^ 2 + g.2 ^ 2)) ^ 2
        = (g.1 ^ 2 + g.2 ^ 2) / Real.sqrt (g.1 ^ 2 + g.2 ^ 2) ^ 2 := by ring
      _ = Real.sqrt (g.1 ^ 2 + g.2 ^ 2) ^ 2
          / Real.sqrt (g.1 ^ 2 + g.2 ^ 2) ^ 2 := by rw [hsq]
      _ = 1 := div_self hne
  · intro W H vel curl obst dt strength i j h
    unfold vorticityShader
    rw [if_neg h]

/-- Witness for `vorticity_normalization_guard`: the gradient `(3, 4)` has
length `5 > 0.0001`, and its guarded normalization is `(3/5, 4/5)`. -/
theorem vorticity_normalization_guard_witness :
    (1/10000 : ℝ) < Real.sqrt ((3 : ℝ) ^ 2 + (4 : ℝ) ^ 2) ∧
    vortNormalize ((3 : ℝ), (4 : ℝ)) = (3/5, 4/5) := by
  have h25 : Real.sqrt ((3 : ℝ) ^ 2 + (4 : ℝ) ^ 2) = 5 := by
    rw [show (3 : ℝ) ^ 2 + (4 : ℝ) ^ 2 = 5 ^ 2 by norm_num]
    exact Real.sqrt_sq (by norm_num)
  have hlt : (1/10000 : ℝ) < Real.sqrt ((3 : ℝ) ^ 2 + (4 : ℝ) ^ 2) := by
    rw [h25]; norm_num
  have happ := (vorticity_normalization_guard ((3 : ℝ), (4 : ℝ))).2.1 hlt
  refine ⟨hlt, ?_⟩
  rw [happ.1]
  dsimp only
  rw [h25]

/-- **C3**: constructing with a non-positive resolution fails on the
sequential path (the `ImageData` allocation raises, leaving no usable
instance) and constructing with non-positive dimensions fails on the
parallel path (framebuffer incompleteness or a missing capability);
with positive dimensions and full floating-point render-target support
both constructions succeed and every field buffer is zero-initialized. -/
theorem construction_validation :
    (∀ res : ℤ, res ≤ 0 → cpuConstructor res = .error "IndexSizeError") ∧
    (∀ res : ℤ, 0 < res → cpuConstructor res =
      .ok { GRID_RES := res
          , prev_density := fun _ => 0, curr_density := fun _ => 0
          , prev_velocityX := fun _ => 0, curr_velocityX := fun _ => 0
          , prev_velocityY := fun _ => 0, curr_velocityY := fun _ => 0
          , imageData := { width := res, height := res
                         , data := fun _ => 0 } }) ∧
    (∀ (s : GLSupport) (w h : ℤ), w ≤ 0 ∨ h ≤ 0 →
      ∃ e, gpuConstructor s w h = .error e) ∧
    (∀ w h : ℤ, 0 < w → 0 < h →
      gpuConstructor ⟨true, true, true⟩ w h =
        .ok { width := w, height := h
            , velocityRead := fun _ _ => (0, 0, 0, 0)
            , velocityWrite := fun _ _ => (0, 0, 0, 0)
            , densityRead := fun _ _ => (0, 0, 0, 0)
            , densityWrite := fun _ _ => (0, 0, 0, 0)
            , divergenceTex := fun _ _ => (0, 0, 0, 0)
            , pressureRead := fun _ _ => (0, 0, 0, 0)
            , pressureWrite := fun _ _ => (0, 0, 0, 0)
            , curlTex := fun _ _ => (0, 0, 0, 0)
            , obstaclesTex := fun _ _ => (0, 0, 0, 0) }) := by
  refine ⟨?_, ?_, ?_, ?_⟩
  · intro res h
    unfold cpuConstructor float32ArrayNew imageDataNew
    dsimp only
    rw [if_neg (not_lt.2 (mul_self_nonneg (res + 2))),
      if_pos (Or.inl h)]
    rfl
  · intro res h
    unfold cpuConstructor float32ArrayNew imageDataNew
    dsimp only
    rw [if_neg (not_lt.2 (mul_self_nonneg (res + 2))),
      if_neg (by omega : ¬ (res ≤ 0 ∨ res ≤ 0))]
    rfl
  · rintro ⟨w2, ecbf, oes⟩ w h hwh
    cases w2
    · exact ⟨_, rfl⟩
    cases ecbf
    · exact ⟨_, rfl⟩
    cases oes
    · exact ⟨_, rfl⟩
    refine ⟨"Framebuffer incomplete", ?_⟩
    unfold gpuConstructor createFramebufferGPU
    dsimp only
    rw [if_neg (by rintro ⟨hw, hh, -⟩; omega :
      ¬ (0 < w ∧ 0 < h ∧
        (GLSupport.mk true true true).extColorBufferFloat = true))]
    rfl
  · intro w h hw hh
    unfold gpuConstructor createFramebufferGPU
    dsimp only
    rw [if_pos (⟨hw, hh, rfl⟩ :
      0 < w ∧ 0 < h ∧
        (GLSupport.mk true true true).extColorBufferFloat = true)]
    rfl

/-- Witness for `construction_validation`: resolution `0` is rejected on
the CPU path, a `0 × 64` grid is rejected on the GPU path, and a `64 × 64`
solver with full support is allocated zero-initialized. -/
theorem construction_validation_witness :
    (0 : ℤ) ≤ 0 ∧ cpuConstructor 0 = .error "IndexSizeError" ∧
    (∃ e, gpuConstructor ⟨true, true, true⟩ 0 64 = .error e) ∧
    gpuConstructor ⟨true, true, true⟩ 64 64 =
      .ok { width := 64, height := 64
          , velocityRead := fun _ _ => (0, 0, 0, 0)
          , velocityWrite := fun _ _ => (0, 0, 0, 0)
          , densityRead := fun _ _ => (0, 0, 0, 0)
          , densityWrite := fun _ _ => (0, 0, 0, 0)
          , divergenceTex := fun _ _ => (0, 0, 0, 0)
          , pressureRead := fun _ _ => (0, 0, 0, 0)
          , pressureWrite := fun _ _ => (0, 0, 0, 0)
          , curlTex := fun _ _ => (0, 0, 0, 0)
          , obstaclesTex := fun _ _ => (0, 0, 0, 0) } :=
  ⟨le_rfl, construction_validation.1 0 le_rfl,
   construction_validation.2.2.1 ⟨true, true, true⟩ 0 64 (Or.inl le_rfl),
   construction_validation.2.2.2 64 64 (by norm_num) (by norm_num)⟩

/-- Decoding a 1-D index built from an in-range column recovers the row
and column. -/
theorem rowOf_colOf_encode (N r c : ℤ) (hc0 : 0 ≤ c) (hc1 : c < N + 2) :
    rowOf N (idx2Dto1D N r c) = r ∧ colOf N (idx2Dto1D N r c) = c := by
  unfold rowOf colOf idx2Dto1D
  have hne : (N + 2 : ℤ) ≠ 0 := by omega
  constructor
  · rw [Int.add_mul_ediv_right _ _ hne, Int.ediv_eq_zero_of_lt hc0 hc1]
    ring
  · rw [Int.add_mul_emod_self, Int.emod_eq_of_lt hc0 hc1]

/-- `set_bnd` never modifies an interior cell: it only rewrites the
padding ring (rows/columns `0` and `N+1`). -/
theorem setBnd_interior (N b : ℤ) (x : ℤ → ℚ) (r c : ℤ)
    (hr1 : 1 ≤ r) (hr2 : r ≤ N) (hc1 : 1 ≤ c) (hc2 : c ≤ N) :
    setBnd N b x (idx2Dto1D N r c) = x (idx2Dto1D N r c) := by
  obtain ⟨hrow, hcol⟩ := rowOf_colOf_encode N r c (by omega) (by omega)
  have hne : ∀ r' c' : ℤ, 0 ≤ c' → c' < N + 2 →
      (rowOf N (idx2Dto1D N r' c') = r') → ¬ (r = r' ∧ c = c') →
      idx2Dto1D N r c ≠ idx2Dto1D N r' c' := by
    intro r' c' hc0' hc1' hrow' hne' he
    have h1 : r = r' := by
      have := congrArg (rowOf N) he
      rwa [hrow, hrow'] at this
    have h2 : c = c' := by
      have := congrArg (colOf N) he
      rwa [hcol, (rowOf_colOf_encode N r' c' hc0' hc1').2] at this
    exact hne' ⟨h1, h2⟩
  unfold setBnd setBndCorners setBndLeftRight setBndTopBottom
  dsimp only
  rw [if_neg (hne 0 0 (by omega) (by omega)
        (rowOf_colOf_encode N 0 0 (by omega) (by omega)).1
        (by omega)),
      if_neg (hne 0 (N + 1) (by omega) (by omega)
        (rowOf_colOf_encode N 0 (N + 1) (by omega) (by omega)).1
        (by omega)),
      if_neg (hne (N + 1) 0 (by omega) (by omega)
        (rowOf_colOf_encode N (N + 1) 0 (by omega) (by omega)).1
        (by omega)),
      if_neg (hne (N + 1) (N + 1) (by omega) (by omega)
        (rowOf_colOf_encode N (N + 1) (N + 1) (by omega) (by omega)).1
        (by omega)),
      hrow, hcol,
      if_neg (by omega : ¬ ((c = 0 ∨ c = N + 1) ∧ 1 ≤ r ∧ r ≤ N)),
      if_neg (by omega : ¬ ((r = 0 ∨ r = N + 1) ∧ 1 ≤ c ∧ c ≤ N))]

/-- Advecting with an everywhere-zero velocity field leaves an interior
cell's bilinear sample exactly at the cell itself. -/
theorem cpuAdvectCell_zero_vel (N : ℤ) (prev : ℤ → ℚ) (dt : ℚ)
    (r c : ℤ) (hr1 : 1 ≤ r) (hr2 : r ≤ N) (hc1 : 1 ≤ c) (hc2 : c ≤ N) :
    cpuAdvectCell N prev (fun _ => 0) (fun _ => 0) dt r c =
      prev (idx2Dto1D N r c) := by
  have hc' : (1 : ℚ) ≤ (c : ℚ) := by exact_mod_cast hc1
  have hcN : (c : ℚ) ≤ (N : ℚ) := by exact_mod_cast hc2
  have hr' : (1 : ℚ) ≤ (r : ℚ) := by exact_mod_cast hr1
  have hrN : (r : ℚ) ≤ (N : ℚ) := by exact_mod_cast hr2
  unfold cpuAdvectCell cpuBtX cpuBtY clampQ
  dsimp only
  simp only [mul_zero, sub_zero]
  rw [min_eq_left (show (c : ℚ) ≤ (N : ℚ) + 1/2 by linarith),
      max_eq_right (show (1/2 : ℚ) ≤ (c : ℚ) by linarith),
      min_eq_left (show (r : ℚ) ≤ (N : ℚ) + 1/2 by linarith),
      max_eq_right (show (1/2 : ℚ) ≤ (r : ℚ) by linarith),
      Int.floor_intCast, Int.floor_intCast]
  simp only [sub_self]
  ring

/-- The sequential `advect` with a zero velocity field returns each
interior cell's own previous value unchanged (no dissipation exists in
this path). -/
theorem cpuAdvect_zero_vel (N b : ℤ) (next prev : ℤ → ℚ) (dt : ℚ)
    (r c : ℤ) (hr1 : 1 ≤ r) (hr2 : r ≤ N) (hc1 : 1 ≤ c) (hc2 : c ≤ N) :
    cpuAdvect N b next prev (fun _ => 0) (fun _ => 0) dt
      (idx2Dto1D N r c) = prev (idx2Dto1D N r c) := by
  unfold cpuAdvect
  rw [setBnd_interior N b _ r c hr1 hr2 hc1 hc2]
  dsimp only
  rw [(rowOf_colOf_encode N r c (by omega) (by omega)).1,
      (rowOf_colOf_encode N r c (by omega) (by omega)).2,
      if_pos ⟨hr1, hr2, hc1, hc2⟩,
      cpuAdvectCell_zero_vel N prev dt r c hr1 hr2 hc1 hc2]

/-- Bilinear sampling of the all-zero field is zero everywhere. -/
theorem sampleLinear_zero (W H : ℤ) (u v : ℚ) :
    sampleLinear W H (fun _ _ => 0) u v = 0 := by
  unfold sampleLinear texAt
  dsimp only
  ring

/-- `CLAMP_TO_EDGE` does not move an in-range index. -/
theorem clampIdx_of_mem (W i : ℤ) (h0 : 0 ≤ i) (h1 : i < W) :
    clampIdx W i = i := by
  unfold clampIdx
  omega

/-- Bilinear (`LINEAR`) sampling at a texel's center returns exactly that
texel's value: the fractional blend weights vanish. -/
theorem sampleLinear_center (W H : ℤ) (f : ℤ → ℤ → ℚ) (i j : ℤ)
    (hi0 : 0 ≤ i) (hi1 : i < W) (hj0 : 0 ≤ j) (hj1 : j < H) :
    sampleLinear W H f (texelCenter W i) (texelCenter H j) = f i j := by
  have hW : ((W : ℚ)) ≠ 0 := by
    have : (0 : ℤ) < W := by omega
    exact_mod_cast this.ne'
  have hH : ((H : ℚ)) ≠ 0 := by
    have : (0 : ℤ) < H := by omega
    exact_mod_cast this.ne'
  unfold sampleLinear texelCenter
  dsimp only
  rw [div_mul_cancel₀ _ hW, div_mul_cancel₀ _ hH,
      add_sub_cancel_right, add_sub_cancel_right,
      Int.floor_intCast, Int.floor_intCast]
  simp only [sub_self, texAt, clampIdx_of_mem W i hi0 hi1,
    clampIdx_of_mem H j hj0 hj1]
  ring

/-- `NEAREST` sampling at a texel's center returns that texel's value. -/
theorem sampleNearest_center (W H : ℤ) (f : ℤ → ℤ → ℚ) (i j : ℤ)
    (hi0 : 0 ≤ i) (hi1 : i < W) (hj0 : 0 ≤ j) (hj1 : j < H) :
    sampleNearest W H f (texelCenter W i) (texelCenter H j) = f i j := by
  have hW : ((W : ℚ)) ≠ 0 := by
    have : (0 : ℤ) < W := by omega
    exact_mod_cast this.ne'
  have hH : ((H : ℚ)) ≠ 0 := by
    have : (0 : ℤ) < H := by omega
    exact_mod_cast this.ne'
  have hhalf : ⌊(1/2 : ℚ)⌋ = 0 := by norm_num [Int.floor_eq_zero_iff]
  unfold sampleNearest texelCenter
  rw [div_mul_cancel₀ _ hW, div_mul_cancel₀ _ hH,
      Int.floor_int_add, Int.floor_int_add, hhalf, add_zero, add_zero,
      texAt, clampIdx_of_mem W i hi0 hi1, clampIdx_of_mem H j hj0 hj1]

/-- The advection shader outputs `0` at every cell the mask marks solid,
whatever the velocity, source field or dissipation. -/
theorem advectShader_solid (W H : ℤ) (vel : ℤ → ℤ → ℚ × ℚ)
    (src obst : ℤ → ℤ → ℚ) (dt dissipation : ℚ) (i j : ℤ)
    (hi0 : 0 ≤ i) (hi1 : i < W) (hj0 : 0 ≤ j) (hj1 : j < H)
    (hs : obst i j > 1/10) :
    advectShaderCell W H vel src obst dt dissipation i j = 0 := by
  unfold advectShaderCell
  dsimp only
  rw [sampleNearest_center W H obst i j hi0 hi1 hj0 hj1, if_pos hs]

/-- The advection shader with an everywhere-zero velocity field outputs
`dissipation * src` at every fluid cell: the backtrace is the identity and
bilinear sampling at the cell's own center reproduces its value. -/
theorem advectShader_zero_vel_fluid (W H : ℤ) (src obst : ℤ → ℤ → ℚ)
    (dt dissipation : ℚ) (i j : ℤ) (hi0 : 0 ≤ i) (hi1 : i < W)
    (hj0 : 0 ≤ j) (hj1 : j < H) (hf : ¬ obst i j > 1/10) :
    advectShaderCell W H (fun _ _ => (0, 0)) src obst dt dissipation i j =
      dissipation * src i j := by
  have hv : sampleLinear2 W H (fun _ _ => ((0 : ℚ), (0 : ℚ)))
      (texelCenter W i) (texelCenter H j) = (0, 0) := by
    unfold sampleLinear2
    rw [show (fun i j => ((fun _ _ => ((0 : ℚ), (0 : ℚ))) i j).1)
          = (fun (_ _ : ℤ) => (0 : ℚ)) from rfl,
        show (fun i j => ((fun _ _ => ((0 : ℚ), (0 : ℚ))) i j).2)
          = (fun (_ _ : ℤ) => (0 : ℚ)) from rfl,
        sampleLinear_zero]
  unfold advectShaderCell
  dsimp only
  rw [sampleNearest_center W H obst i j hi0 hi1 hj0 hj1, if_neg hf, hv]
  unfold advectSrcCoord
  dsimp only
  simp only [zero_mul, sub_zero]
  rw [sampleNearest_center W H obst i j hi0 hi1 hj0 hj1, if_neg hf]
  dsimp only
  rw [sampleLinear_center W H src i j hi0 hi1 hj0 hj1]

/-- **C7, amended**: advecting any field `F` with an everywhere-zero
velocity field leaves every interior cell's value exactly `F` in the
sequential path (which applies no dissipation), and yields
`dissipation * F` at every fluid cell in the parallel path — while every
cell the obstacle mask marks solid outputs `0` there regardless of `F`;
and bilinear interpolation at the identity trace reproduces the cell's own
value. -/
theorem advect_zero_velocity_identity :
    (∀ (N b : ℤ) (next prev : ℤ → ℚ) (dt : ℚ) (r c : ℤ),
      1 ≤ r → r ≤ N → 1 ≤ c → c ≤ N →
      cpuAdvect N b next prev (fun _ => 0) (fun _ => 0) dt
        (idx2Dto1D N r c) = prev (idx2Dto1D N r c)) ∧
    (∀ (W H : ℤ) (src obst : ℤ → ℤ → ℚ) (dt dissipation : ℚ) (i j : ℤ),
      0 ≤ i → i < W → 0 ≤ j → j < H → ¬ obst i j > 1/10 →
      advectShaderCell W H (fun _ _ => (0, 0)) src obst dt dissipation i j =
        dissipation * src i j) ∧
    (∀ (W H : ℤ) (vel : ℤ → ℤ → ℚ × ℚ) (src obst : ℤ → ℤ → ℚ)
        (dt dissipation : ℚ) (i j : ℤ),
      0 ≤ i → i < W → 0 ≤ j → j < H → obst i j > 1/10 →
      advectShaderCell W H vel src obst dt dissipation i j = 0) ∧
    (∀ (W H : ℤ) (f : ℤ → ℤ → ℚ) (i j : ℤ),
      0 ≤ i → i < W → 0 ≤ j → j < H →
      sampleLinear W H f (texelCenter W i) (texelCenter H j) = f i j) :=
  ⟨fun N b next prev dt r c hr1 hr2 hc1 hc2 =>
      cpuAdvect_zero_vel N b next prev dt r c hr1 hr2 hc1 hc2,
   fun W H src obst dt dissipation i j hi0 hi1 hj0 hj1 hf =>
      advectShader_zero_vel_fluid W H src obst dt dissipation i j
        hi0 hi1 hj0 hj1 hf,
   fun W H vel src obst dt dissipation i j hi0 hi1 hj0 hj1 hs =>
      advectShader_solid W H vel src obst dt dissipation i j
        hi0 hi1 hj0 hj1 hs,
   fun W H f i j hi0 hi1 hj0 hj1 =>
      sampleLinear_center W H f i j hi0 hi1 hj0 hj1⟩

/-- **C7, counterexample**: on the parallel path a cell marked solid
outputs `0` even under zero velocity, so a field holding `1` there is not
reproduced (`dissipation * F = 1 ≠ 0`): the claim fails at solid interior
cells. -/
theorem advect_zero_velocity_counterexample :
    advectShaderCell 3 3 (fun _ _ => (0, 0)) (fun _ _ => 1)
      (fun i j => if i = 1 ∧ j = 1 then 1 else 0) 1 1 1 1 = 0 ∧
    (1 : ℚ) * 1 ≠ 0 := by
  constructor
  · exact advectShader_solid 3 3 (fun _ _ => (0, 0)) (fun _ _ => 1)
      (fun i j => if i = 1 ∧ j = 1 then 1 else 0) 1 1 1 1
      (by norm_num) (by norm_num) (by norm_num) (by norm_num)
      (by norm_num)
  · norm_num

/-- Witness for `advect_zero_velocity_identity`: a 2×2 sequential grid
(interior cell `(1,1)` keeps its value `5` under zero velocity) and a 3×3
obstacle-free parallel grid (fluid cell `(1,1)` returns
`dissipation * src`). -/
theorem advect_zero_velocity_identity_witness :
    cpuAdvect 2 0 (fun _ => 99) (fun idx => (idx : ℚ)) (fun _ => 0)
      (fun _ => 0) 7 (idx2Dto1D 2 1 1) = ((idx2Dto1D 2 1 1 : ℤ) : ℚ) ∧
    advectShaderCell 3 3 (fun _ _ => (0, 0)) (fun i j => (i : ℚ) + j)
      (fun _ _ => 0) 4 (999/1000) 1 1 = 999/1000 * ((1 : ℚ) + 1) := by
  constructor
  · exact advect_zero_velocity_identity.1 2 0 (fun _ => 99)
      (fun idx => (idx : ℚ)) 7 1 1 (by norm_num) (by norm_num)
      (by norm_num) (by norm_num)
  · have := advect_zero_velocity_identity.2.1 3 3 (fun i j => (i : ℚ) + j)
      (fun _ _ => 0) 4 (999/1000) 1 1 (by norm_num) (by norm_num)
      (by norm_num) (by norm_num) (by norm_num)
    simpa using this

/-- **C6**: evaluation of the advection shader's wall-avoidance retry at a
concrete input.  The cell at UV `(9/20, 9/20)` backtraces (with
`velocity·dt·texel = (1/5, 0)`) to `(1/4, 9/20)`, which is solid; the
first retry of the loop lands at `(63/100, 9/20)` — on the *opposite* side
of the cell from the backtrace (`63/100 > 9/20` although the trace runs
backwards, toward smaller x), because the loop computes
`pos - delta * stepFactor` with `delta = prev - pos`, flipping the trace
direction instead of shrinking it. -/
theorem advect_backtrace_retry_reversed :
    advectSrcCoord 10 10 (fun i _ => if i = 2 ∨ i = 3 then 1 else 0)
      (2, 0) 1 (9/20, 9/20) = (63/100, 9/20) ∧
    (9/20 : ℚ) < 63/100 ∧ (1/4 : ℚ) < 9/20 ∧
    (9/20 : ℚ) - 1/5 * (9/10) = 27/100 := by
  refine ⟨?_, by norm_num, by norm_num, by norm_num⟩
  norm_num [advectSrcCoord, advectRetry, sampleNearest, texAt, clampIdx]

end FluidSim
